import Mathlib

/-!
Verification development for `GeoData/get_coords.py`.

The script is embedded shallowly:

* Strings are `List Char`; Python floats are modelled as exact rationals `ℚ`
  (the decimal strings appearing here are exactly representable as rationals,
  and all claims compare parsed values to decimal literals).
* The line-extraction regex is embedded as a small backtracking matcher with
  Python `re` semantics (leftmost match, lazy `+?` groups preferring the
  shortest capture, greedy `+`/`*`/`?`, anchored at the line start with
  trailing text ignored, as `re.match` does).
* The network is modelled as an oracle `Nat → Response` giving, for each HTTP
  request the script issues (in order), either a parsed JSON candidate list, a
  transient error (`URLError`/`HTTPError`/`TimeoutError`), or any other raised
  exception (e.g. a JSON decode error).
* File writes are recorded as a list of filenames opened in write mode.
-/

namespace GeoData

/-- Whitespace test used by Python `str.strip()` and the regex class `\s`
(ASCII fragment: space, tab, newline, carriage return, vertical tab, form
feed; the input format uses only these). -/
def isWs (c : Char) : Bool :=
  c == ' ' || c == '\t' || c == '\n' || c == '\r' || c == Char.ofNat 11 || c == Char.ofNat 12

/-- Python `str.strip()`: drop leading and trailing whitespace. -/
def strip (s : List Char) : List Char :=
  ((s.dropWhile isWs).reverse.dropWhile isWs).reverse

/-- Python `content.split('\n')`: split on every newline; an empty string
yields one empty part. -/
def splitNl : List Char → List (List Char)
  | [] => [[]]
  | c :: rest =>
    if c == '\n' then [] :: splitNl rest
    else
      match splitNl rest with
      | [] => [[c]]
      | p :: ps => (c :: p) :: ps

/-- Regular-expression abstract syntax, restricted to the constructs used by
the extraction pattern: character classes, sequencing, numbered capture
groups, and greedy star / greedy plus / lazy plus / greedy option over a
character class. -/
inductive RE where
  | eps
  | cls (p : Char → Bool)
  | seq (a b : RE)
  | group (i : Nat) (r : RE)
  | starCls (p : Char → Bool)
  | plusClsG (p : Char → Bool)
  | plusClsL (p : Char → Bool)
  | optCls (p : Char → Bool)

/-- Capture-group environment: group index paired with the captured text.
The entry produced last (on the successful backtracking path) is first. -/
abbrev Groups := List (Nat × List Char)

/-- Lazy `(p)+?`: consume one class character, try the continuation, and only
on failure consume further characters (shortest capture wins). -/
def lazyPlus (p : Char → Bool) (k : List Char → Option α) : List Char → Option α
  | [] => none
  | c :: rest => if p c then (k rest).orElse (fun _ => lazyPlus p k rest) else none

/-- Greedy `(p)*`: consume as many class characters as possible, giving
characters back one at a time when the continuation fails. -/
def greedyStar (p : Char → Bool) (k : List Char → Option α) : List Char → Option α
  | [] => k []
  | c :: rest =>
    if p c then (greedyStar p k rest).orElse (fun _ => k (c :: rest)) else k (c :: rest)

/-- Greedy `(p)+`: at least one class character, then as `(p)*`. -/
def greedyPlus (p : Char → Bool) (k : List Char → Option α) : List Char → Option α
  | [] => none
  | c :: rest => if p c then greedyStar p k rest else none

/-- Greedy `(p)?`: prefer consuming one class character. -/
def greedyOpt (p : Char → Bool) (k : List Char → Option α) : List Char → Option α
  | [] => k []
  | c :: rest => if p c then (k rest).orElse (fun _ => k (c :: rest)) else k (c :: rest)

/-- Backtracking matcher in continuation-passing style. `mrun r s gs k`
matches `r` against a prefix of `s` with capture environment `gs`, calling
`k` on the remaining input and extended captures; alternatives are tried in
the priority order Python `re` uses. -/
def mrun : RE → List Char → Groups → (List Char → Groups → Option α) → Option α
  | .eps, s, gs, k => k s gs
  | .cls p, s, gs, k =>
    match s with
    | [] => none
    | c :: rest => if p c then k rest gs else none
  | .seq a b, s, gs, k => mrun a s gs (fun s2 gs2 => mrun b s2 gs2 k)
  | .group i r, s, gs, k =>
    mrun r s gs (fun s2 gs2 => k s2 ((i, s.take (s.length - s2.length)) :: gs2))
  | .starCls p, s, gs, k => greedyStar p (fun s2 => k s2 gs) s
  | .plusClsG p, s, gs, k => greedyPlus p (fun s2 => k s2 gs) s
  | .plusClsL p, s, gs, k => lazyPlus p (fun s2 => k s2 gs) s
  | .optCls p, s, gs, k => greedyOpt p (fun s2 => k s2 gs) s

/-- Model of `re.match(pattern, s)`: anchored at the start of `s`, trailing
text ignored; returns the captures of the first (highest-priority) match. -/
def reMatch (r : RE) (s : List Char) : Option Groups :=
  mrun r s [] (fun _ gs => some gs)

/-- The regex class `.` (any character except newline). -/
def dotP (c : Char) : Bool := c != '\n'

/-- The regex class `\d` (the input uses ASCII digits). -/
def digP (c : Char) : Bool := c.isDigit

/-- The regex class `[–-]`: en-dash or hyphen. -/
def dashP (c : Char) : Bool := c == '–' || c == '-'

/-- The regex class `[+-]`. -/
def signP (c : Char) : Bool := c == '+' || c == '-'

/-- A literal character in a pattern. -/
def chr (c : Char) : RE := .cls (fun d => d == c)

/-- Sequence a list of pattern pieces. -/
def seqAll : List RE → RE
  | [] => .eps
  | [r] => r
  | r :: rs => .seq r (seqAll rs)

/-- One numeric capture group `([+-]?\d+\.?\d*)`. -/
def numGroup (i : Nat) : RE :=
  .group i (seqAll [.optCls signP, .plusClsG digP, .optCls (fun c => c == '.'), .starCls digP])

/-- The extraction pattern
`^(.+?)\s+\((.+?)\)\s+[–-]\s+\(([+-]?\d+\.?\d*),\s*([+-]?\d+\.?\d*)\)`. -/
def landmarkPattern : RE :=
  seqAll [.group 1 (.plusClsL dotP), .plusClsG isWs, chr '(',
          .group 2 (.plusClsL dotP), chr ')', .plusClsG isWs, .cls dashP,
          .plusClsG isWs, chr '(', numGroup 3, chr ',', .starCls isWs,
          numGroup 4, chr ')']

/-- Value of a digit string. -/
def digitsVal (l : List Char) : Nat :=
  l.foldl (fun n c => 10 * n + (c.toNat - 48)) 0

/-- Exact value of the decimal numeral with integer digits `ip` and
fractional digits `fp`: the rational `(ip.fp) = (ip * 10^k + fp) / 10^k`. -/
def decimalVal (ip fp : List Char) : ℚ :=
  Rat.divInt (digitsVal ip * 10 ^ fp.length + digitsVal fp) (10 ^ fp.length)

/-- Unsigned part of Python `float()` on a string of shape `\d+\.?\d*`:
the exact decimal value of the integer digits and any fractional digits. -/
def parseNumCore (s : List Char) : ℚ :=
  let ip := s.takeWhile digP
  match s.dropWhile digP with
  | '.' :: fs => decimalVal ip (fs.takeWhile digP)
  | _ => decimalVal ip []

/-- Python `float()` restricted to strings matched by the numeric capture
groups `[+-]?\d+\.?\d*` (on which `float()` always succeeds). -/
def parseNum (s : List Char) : ℚ :=
  match s with
  | '-' :: rest => -(parseNumCore rest)
  | '+' :: rest => parseNumCore rest
  | _ => parseNumCore s

/-- One extracted landmark: the tuple
`(landmark_name, location_info, existing_lat, existing_lon)`. -/
structure LandmarkRecord where
  name : List Char
  location : List Char
  existing_lat : ℚ
  existing_lon : ℚ
deriving DecidableEq

/-- Model of `match.group(i)`: the text captured by group `i` (defined for
every group of a successful match of the pattern; the default is never
reached there). -/
def groupOf (gs : Groups) (i : Nat) : List Char :=
  (gs.lookup i).getD []

/-- Processing of one line of the input file: strip it, match the pattern,
and on success build the record from the (stripped) name and location
captures and the `float()`-parsed coordinate captures. -/
def extractLine (line : List Char) : Option LandmarkRecord :=
  match reMatch landmarkPattern (strip line) with
  | none => none
  | some gs =>
    some ⟨strip (groupOf gs 1), strip (groupOf gs 2),
          parseNum (groupOf gs 3), parseNum (groupOf gs 4)⟩

/-- The function `extract_landmarks_from_file`, with the file's text passed as `content`
(the script reads the whole file first; a read failure aborts the run before
extraction and is outside this function). -/
def extract_landmarks_from_file (content : List Char) : List LandmarkRecord :=
  (splitNl content).filterMap extractLine

/-- One JSON candidate object from the geocoding service. Field values are
the raw JSON strings; a field may be missing from the object. -/
structure Candidate where
  lat : Option (List Char)
  lon : Option (List Char)
  display_name : Option (List Char)
deriving DecidableEq

/-- Outcome of one HTTP request made by the script: a parsed JSON candidate
list, a transient error (`URLError`, `HTTPError`, `TimeoutError` raised by
the request), or any other raised exception (e.g. `json.loads` failing or
the response body not being a list). -/
inductive Response where
  | ok (data : List Candidate)
  | transient
  | failure
deriving DecidableEq

/-- The value `(lat, lon, display_name)` returned by `geocode_landmark` on
success. -/
structure GeocodeResult where
  lat : ℚ
  lon : ℚ
  display_name : List Char
deriving DecidableEq

/-- Python `float()` on an arbitrary string: `none` models a raised
`ValueError`. Covers the decimal forms with optional sign, fraction and
exponent (the forms a geocoding response can carry; `inf`/`nan` and digit
underscores are not modelled). -/
def pyFloatCore (s : List Char) : Option (ℤ × ℕ) :=
  let ip := s.takeWhile digP
  let r1 := s.dropWhile digP
  let rest :=
    match r1 with
    | '.' :: r2 =>
      let fp := r2.takeWhile digP
      if ip.isEmpty && fp.isEmpty then none
      else some (((digitsVal ip * 10 ^ fp.length + digitsVal fp : ℕ) : ℤ),
                 fp.length, r2.dropWhile digP)
    | _ => if ip.isEmpty then none else some (((digitsVal ip : ℕ) : ℤ), 0, r1)
  match rest with
  | none => none
  | some (m, k, r) =>
    match r with
    | [] => some (m, k)
    | c :: r2 =>
      if c == 'e' || c == 'E' then
        let (eneg, r3) :=
          match r2 with
          | '+' :: t => (false, t)
          | '-' :: t => (true, t)
          | t => (false, t)
        let ds := r3.takeWhile digP
        if ds.isEmpty || !(r3.dropWhile digP).isEmpty then none
        else if eneg then some (m, k + digitsVal ds)
        else some (m * 10 ^ digitsVal ds, k)
      else none

/-- Python `float()` as a rational: strips surrounding whitespace, handles
the sign, and yields the exact value `mantissa / 10 ^ scale`. -/
def pyFloat (s : List Char) : Option ℚ :=
  let go : List Char → Option ℚ := fun t =>
    (pyFloatCore t).map (fun p => Rat.divInt p.1 (10 ^ p.2))
  match strip s with
  | '-' :: rest => ((pyFloatCore rest).map (fun p => -(Rat.divInt p.1 (10 ^ p.2))))
  | '+' :: rest => go rest
  | t => go t

/-- Processing of the first candidate of a non-empty response:
`float(result['lat'])`, `float(result['lon'])`,
`result.get('display_name', '')`. A missing `lat`/`lon` key (`KeyError`) or
an unparsable value (`ValueError`) raises, modelled as `.error`. -/
def processCandidate (result : Candidate) : Except Unit GeocodeResult :=
  match result.lat with
  | none => .error ()
  | some ls =>
    match pyFloat ls with
    | none => .error ()
    | some la =>
      match result.lon with
      | none => .error ()
      | some os =>
        match pyFloat os with
        | none => .error ()
        | some lo => .ok ⟨la, lo, result.display_name.getD []⟩

/-- Result of one iteration of the retry loop body (the `try` block). -/
inductive AttemptResult where
  | found (g : GeocodeResult)
  | noneFound
  | transientErr
  | terminalErr
deriving DecidableEq

/-- One iteration of the retry loop of `geocode_landmark`, reading the
oracle at request index `i`: issue the primary query; on a non-empty
candidate list process its first candidate; on an empty list issue the
single fallback query (`"<name>, California, USA"`) and process its first
candidate, or report `noneFound` if the fallback list is also empty. A
candidate-processing exception or a raised request error is reported as
`terminalErr`/`transientErr`. The second component is the number of HTTP
requests this iteration issued (1 or 2). -/
def attempt (oracle : Nat → Response) (i : Nat) : AttemptResult × Nat :=
  match oracle i with
  | .transient => (.transientErr, 1)
  | .failure => (.terminalErr, 1)
  | .ok [] =>
    match oracle (i + 1) with
    | .transient => (.transientErr, 2)
    | .failure => (.terminalErr, 2)
    | .ok [] => (.noneFound, 2)
    | .ok (c :: _) =>
      match processCandidate c with
      | .ok g => (.found g, 2)
      | .error _ => (.terminalErr, 2)
  | .ok (c :: _) =>
    match processCandidate c with
    | .ok g => (.found g, 1)
    | .error _ => (.terminalErr, 1)

/-- Observable outcome of `geocode_landmark`: its return value, the number
of loop iterations (attempts) run, the number of HTTP requests issued, and
the durations of the `time.sleep(2)` calls made between attempts. -/
structure GeoOut where
  result : Option GeocodeResult
  attemptsMade : Nat
  requestsMade : Nat
  sleeps : List ℚ
deriving DecidableEq

/-- The retry loop `for attempt in range(retries)`: `i` is the next request
index, the recursion argument the number of iterations left. A found result
or an empty fallback returns immediately; a terminal error returns `None`
immediately; a transient error sleeps 2 and continues when a later
iteration remains (`attempt < retries - 1`), else returns `None`. Falling
out of the loop (zero iterations) returns `None`. -/
def geoLoop (oracle : Nat → Response) : Nat → Nat → GeoOut
  | _, 0 => ⟨none, 0, 0, []⟩
  | i, rem + 1 =>
    match attempt oracle i with
    | (.found g, n) => ⟨some g, 1, n, []⟩
    | (.noneFound, n) => ⟨none, 1, n, []⟩
    | (.terminalErr, n) => ⟨none, 1, n, []⟩
    | (.transientErr, n) =>
      match rem with
      | 0 => ⟨none, 1, n, []⟩
      | r + 1 =>
        let o := geoLoop oracle (i + n) (r + 1)
        ⟨o.result, o.attemptsMade + 1, o.requestsMade + n, (2 : ℚ) :: o.sleeps⟩

/-- The function `geocode_landmark(name, location, retries=3)`, abstracted over the
network oracle. The query strings themselves are opaque to the control
flow; what the oracle answers at each request index determines the run. -/
def geocode_landmark (oracle : Nat → Response) (retries : Nat := 3) : GeoOut :=
  geoLoop oracle 0 retries

/-- One entry of the results list built by `main`: the result dictionary
for one landmark. `new_coords`, `display_name` and `coord_difference` are
the success-only fields; `error` is the failure marker. -/
structure OutcomeRecord where
  name : List Char
  location : List Char
  existing_lat : ℚ
  existing_lon : ℚ
  new_coords : Option (ℚ × ℚ)
  display_name : Option (List Char)
  coord_difference : Option (ℚ × ℚ)
  error : Option (List Char)
deriving DecidableEq

/-- Construction of the per-landmark result dictionary in the body of the
main loop. -/
def mkOutcome (lm : LandmarkRecord) (g : Option GeocodeResult) : OutcomeRecord :=
  match g with
  | some gr =>
    { name := lm.name, location := lm.location,
      existing_lat := lm.existing_lat, existing_lon := lm.existing_lon,
      new_coords := some (gr.lat, gr.lon),
      display_name := some gr.display_name,
      coord_difference :=
        some (|gr.lat - lm.existing_lat|, |gr.lon - lm.existing_lon|),
      error := none }
  | none =>
    { name := lm.name, location := lm.location,
      existing_lat := lm.existing_lat, existing_lon := lm.existing_lon,
      new_coords := none, display_name := none, coord_difference := none,
      error := some ("Geocoding failed".data) }

/-- The main loop: one `geocode_landmark` call and one `results.append` per
extracted landmark, in order. `env k` is the network oracle seen by the
`k`-th landmark's geocode call (`0`-based; the requests of distinct
landmarks are independent). -/
def resolveAll (env : Nat → Nat → Response) : Nat → List LandmarkRecord → List OutcomeRecord
  | _, [] => []
  | k, lm :: rest =>
    mkOutcome lm (geocode_landmark (env k) 3).result :: resolveAll env (k + 1) rest

/-- One line of the CSV file: either a fully rendered text line (the
header) or a data row whose numeric cells are the rational coordinate
values (their decimal rendering is not modelled). -/
inductive CsvLine where
  | text (s : List Char)
  | row (name : List Char) (lat lon : ℚ)
deriving DecidableEq

/-- The CSV row written for one result: the name with every comma replaced
by a semicolon, and the new coordinates when `new_coords` is present (a
present coordinate pair is a non-empty, hence truthy, dict), otherwise the
existing coordinates. -/
def csvRowOf (r : OutcomeRecord) : CsvLine :=
  let name := r.name.map (fun c => if c == ',' then ';' else c)
  match r.new_coords with
  | some (la, lo) => .row name la lo
  | none => .row name r.existing_lat r.existing_lon

/-- The CSV file contents: the header line then one row per result, in
order. -/
def writeCsv (results : List OutcomeRecord) : List CsvLine :=
  .text ("name,lat,lon".data) :: results.map csvRowOf

/-- The hardcoded input filename. -/
def input_file : List Char := "in.txt".data

/-- The hardcoded JSON output filename. `main` assigns this name but never
opens it. -/
def output_file : List Char := "landmarks_with_coords.json".data

/-- The hardcoded CSV output filename. -/
def csv_file : List Char := "landmarks_coords.csv".data

/-- Everything `main` produces: the accumulated results list, the CSV file
contents, and the filenames opened in write mode (`open(..., 'w')`), in
program order. -/
structure RunOutput where
  results : List OutcomeRecord
  csv : List CsvLine
  filesOpenedForWrite : List (List Char)
deriving DecidableEq

/-- The function `main()`, with the input file's text passed as `content` (reading it is
the only fatal step and precedes everything modelled here) and the network
abstracted by `env`. The source opens exactly one file in write mode, the
CSV file; `output_file` is assigned at the top of `main` and never used. -/
def main (content : List Char) (env : Nat → Nat → Response) : RunOutput :=
  let landmarks := extract_landmarks_from_file content
  let results := resolveAll env 0 landmarks
  { results := results, csv := writeCsv results,
    filesOpenedForWrite := [csv_file] }

/-- The input line used by the spec's worked example. -/
def sampleLine : List Char :=
  "Lost Coast Trail (King Range, Humboldt/Mendocino) – (40.28918, -124.35588)".data

/-- The captures the extraction pattern produces on `sampleLine`. -/
def sampleGroups : Groups :=
  [(4, "-124.35588".data), (3, "40.28918".data),
   (2, "King Range, Humboldt/Mendocino".data), (1, "Lost Coast Trail".data)]

/-- A non-matching input line (a header). -/
def headerLine : List Char := "## California Landmarks".data

/-- A well-formed candidate with all three fields present. -/
def candA : Candidate :=
  ⟨some ("40.5".data), some ("-120.25".data), some ("Mount Example California".data)⟩

/-- A second candidate, to show later candidates are ignored. -/
def candB : Candidate := ⟨some ("0".data), some ("0".data), some ("Other".data)⟩

/-- A candidate whose `lat` value does not parse as a float and whose
`display_name` is missing. -/
def candBad : Candidate := ⟨some ("abc".data), some ("1.5".data), none⟩

end GeoData

namespace GeoData

theorem mkOutcome_core (lm : LandmarkRecord) (g : Option GeocodeResult) :
    ((mkOutcome lm g).name, (mkOutcome lm g).location,
     (mkOutcome lm g).existing_lat, (mkOutcome lm g).existing_lon) =
    (lm.name, lm.location, lm.existing_lat, lm.existing_lon) := by
  cases g <;> rfl

theorem resolveAll_length (env : Nat → Nat → Response) :
    ∀ (lms : List LandmarkRecord) (k : Nat),
      (resolveAll env k lms).length = lms.length := by
  intro lms
  induction lms with
  | nil => intro k; rfl
  | cons lm rest ih => intro k; simp [resolveAll, ih]

theorem resolveAll_core (env : Nat → Nat → Response) :
    ∀ (lms : List LandmarkRecord) (k : Nat),
      (resolveAll env k lms).map
          (fun r => (r.name, r.location, r.existing_lat, r.existing_lon)) =
        lms.map (fun lm => (lm.name, lm.location, lm.existing_lat, lm.existing_lon)) := by
  intro lms
  induction lms with
  | nil => intro k; rfl
  | cons lm rest ih =>
    intro k
    simp only [resolveAll, List.map_cons, ih, mkOutcome_core]

theorem length_filterMap_eq_length_filter (f : α → Option β) (p : α → Bool)
    (hfp : ∀ a, (f a).isSome = p a) :
    ∀ l : List α, (l.filterMap f).length = (l.filter p).length := by
  intro l
  induction l with
  | nil => rfl
  | cons a t ih =>
    simp only [List.filterMap_cons, List.filter_cons]
    cases hf : f a with
    | none =>
      have hp : p a = false := by rw [← hfp a, hf]; rfl
      simp [hp, ih]
    | some b =>
      have hp : p a = true := by rw [← hfp a, hf]; rfl
      simp [hp, ih]

/-- Claim C1 (code bug): the run is claimed to write both output artifacts,
but `main` opens exactly one file for writing, the CSV file
`landmarks_coords.csv`; the JSON file `landmarks_with_coords.json` (the
name `main` itself assigns to `output_file` and then never uses) is never
written, on every input and network behaviour. -/
theorem C1_json_artifact_never_written (content : List Char) (env : Nat → Nat → Response) :
    (main content env).filesOpenedForWrite = [csv_file] ∧
    (main content env).filesOpenedForWrite.count output_file = 0 ∧
    (main content env).filesOpenedForWrite.count csv_file = 1 := by
  refine ⟨rfl, ?_, ?_⟩
  · show ([csv_file].count output_file) = 0
    decide
  · show ([csv_file].count csv_file) = 1
    decide

/-- Claim C2: the OutcomeRecord sequence accumulated by the main loop has
exactly the same length and order as the LandmarkRecord sequence the
Extractor produced: one outcome per landmark, in order, carrying that
landmark's name, location and existing coordinates, for every input and
network behaviour. -/
theorem C2_outcome_sequence_matches_landmarks (content : List Char)
    (env : Nat → Nat → Response) :
    (main content env).results.length = (extract_landmarks_from_file content).length ∧
    (main content env).results.map
        (fun r => (r.name, r.location, r.existing_lat, r.existing_lon)) =
      (extract_landmarks_from_file content).map
        (fun lm => (lm.name, lm.location, lm.existing_lat, lm.existing_lon)) := by
  exact ⟨resolveAll_length env (extract_landmarks_from_file content) 0,
         resolveAll_core env (extract_landmarks_from_file content) 0⟩

/-- Claim C3: whenever a (stripped) input line matches the extraction
pattern with captures `gs`, the extracted record's four fields are the
trimmed name capture, the trimmed location capture, and the two coordinate
captures parsed as floats; in particular the spec's example line yields
name `Lost Coast Trail`, location `King Range, Humboldt/Mendocino`,
existing latitude 40.28918 and existing longitude -124.35588. -/
theorem C3_extractor_field_correctness (line : List Char) (gs : Groups)
    (h : reMatch landmarkPattern (strip line) = some gs) :
    extractLine line =
      some ⟨strip (groupOf gs 1), strip (groupOf gs 2),
            parseNum (groupOf gs 3), parseNum (groupOf gs 4)⟩ ∧
    extractLine sampleLine =
      some ⟨"Lost Coast Trail".data, "King Range, Humboldt/Mendocino".data,
            (40.28918 : ℚ), (-124.35588 : ℚ)⟩ := by
  constructor
  · unfold extractLine
    rw [h]
  · have he : extractLine sampleLine =
        some ⟨"Lost Coast Trail".data, "King Range, Humboldt/Mendocino".data,
              Rat.divInt 4028918 100000, -(Rat.divInt 12435588 100000)⟩ := by decide
    rw [he]
    simp only [Option.some.injEq, LandmarkRecord.mk.injEq]
    refine ⟨trivial, trivial, ?_, ?_⟩
    · rw [Rat.divInt_eq_div]; norm_num
    · rw [Rat.divInt_eq_div]; norm_num

/-- Witness for C3 at the spec's example line. -/
theorem C3_witness :
    reMatch landmarkPattern (strip sampleLine) = some sampleGroups ∧
    extractLine sampleLine =
      some ⟨strip (groupOf sampleGroups 1), strip (groupOf sampleGroups 2),
            parseNum (groupOf sampleGroups 3), parseNum (groupOf sampleGroups 4)⟩ :=
  ⟨by decide, (C3_extractor_field_correctness sampleLine sampleGroups (by decide)).1⟩

/-- Claim C4: a line on which the (stripped) extraction pattern does not
match produces no record and no error, and extraction is total: over any
file content the number of extracted records equals the number of matching
lines, every other line being skipped. -/
theorem C4_nonmatching_lines_skipped :
    (∀ line : List Char,
      reMatch landmarkPattern (strip line) = none → extractLine line = none) ∧
    (∀ content : List Char,
      (extract_landmarks_from_file content).length =
        ((splitNl content).filter
          (fun l => (reMatch landmarkPattern (strip l)).isSome)).length) := by
  constructor
  · intro line h
    unfold extractLine
    rw [h]
  · intro content
    apply length_filterMap_eq_length_filter
    intro a
    unfold extractLine
    cases hm : reMatch landmarkPattern (strip a) <;> simp [hm]

/-- Witness for C4 at a header line. -/
theorem C4_witness :
    reMatch landmarkPattern (strip headerLine) = none ∧
    extractLine headerLine = none :=
  ⟨by decide, C4_nonmatching_lines_skipped.1 _ (by decide)⟩

/-- Claim C5: when the primary query returns zero candidates, the attempt
issues exactly one fallback request (two requests in total); when the
fallback also returns zero candidates, `geocode_landmark` returns an absent
result after that single attempt, with no further requests, retries or
sleeps. -/
theorem C5_single_fallback_then_absent (oracle : Nat → Response)
    (h0 : oracle 0 = Response.ok []) :
    (attempt oracle 0).2 = 2 ∧
    (oracle 1 = Response.ok [] →
      geocode_landmark oracle 3 = ⟨none, 1, 2, []⟩) := by
  constructor
  · unfold attempt
    rw [h0]
    cases h1 : oracle 1 with
    | ok data =>
      cases data with
      | nil => simp [h1]
      | cons c cs =>
        cases hpc : processCandidate c <;> simp [h1, hpc]
    | transient => simp [h1]
    | failure => simp [h1]
  · intro h1
    have ha : attempt oracle 0 = (.noneFound, 2) := by
      simp [attempt, h0, h1]
    simp [geocode_landmark, geoLoop, ha]

/-- Witness for C5 with an oracle answering every request with zero
candidates. -/
theorem C5_witness :
    (attempt (fun _ => Response.ok []) 0).2 = 2 ∧
    geocode_landmark (fun _ => Response.ok []) 3 = ⟨none, 1, 2, []⟩ :=
  ⟨(C5_single_fallback_then_absent _ rfl).1,
   (C5_single_fallback_then_absent _ rfl).2 rfl⟩

/-- Claim C6: whenever a query (primary, or fallback after an empty
primary) returns a non-empty candidate list, the attempt's result is built
from the first candidate only: its `lat` and `lon` strings parsed as
floats, and its `display_name` (defaulting to the empty string) taken
verbatim, whatever the remaining candidates are. -/
theorem C6_first_candidate_used (oracle : Nat → Response) (i : Nat)
    (c : Candidate) (cs : List Candidate) (ls os : List Char) (qa qb : ℚ)
    (hla : c.lat = some ls) (hqa : pyFloat ls = some qa)
    (hlo : c.lon = some os) (hqb : pyFloat os = some qb) :
    (oracle i = Response.ok (c :: cs) →
      attempt oracle i = (.found ⟨qa, qb, c.display_name.getD []⟩, 1)) ∧
    (oracle i = Response.ok [] → oracle (i + 1) = Response.ok (c :: cs) →
      attempt oracle i = (.found ⟨qa, qb, c.display_name.getD []⟩, 2)) := by
  have hp : processCandidate c = .ok ⟨qa, qb, c.display_name.getD []⟩ := by
    simp [processCandidate, hla, hqa, hlo, hqb]
  constructor
  · intro h0
    simp [attempt, h0, hp]
  · intro h0 h1
    simp [attempt, h0, h1, hp]

/-- Witness for C6 with a concrete two-element candidate list. -/
theorem C6_witness :
    attempt (fun _ => Response.ok [candA, candB]) 0 =
      (.found ⟨Rat.divInt 405 (10 ^ 1), -(Rat.divInt 12025 (10 ^ 2)),
               "Mount Example California".data⟩, 1) :=
  (C6_first_candidate_used _ 0 candA [candB]
    _ _ _ _ rfl (by decide) rfl (by decide)).1 rfl

theorem geoLoop_all_transient (oracle : Nat → Response)
    (h : ∀ i, (attempt oracle i).1 = .transientErr) :
    ∀ (rem i : Nat),
      (geoLoop oracle i (rem + 1)).result = none ∧
      (geoLoop oracle i (rem + 1)).attemptsMade = rem + 1 ∧
      (geoLoop oracle i (rem + 1)).sleeps = List.replicate rem 2 := by
  intro rem
  induction rem with
  | zero =>
    intro i
    cases hA : attempt oracle i with
    | mk a n =>
      have hra : a = .transientErr := by
        have hh := h i
        rw [hA] at hh
        exact hh
      subst hra
      simp [geoLoop, hA]
  | succ r ih =>
    intro i
    cases hA : attempt oracle i with
    | mk a n =>
      have hra : a = .transientErr := by
        have hh := h i
        rw [hA] at hh
        exact hh
      subst hra
      have hrec := ih (i + n)
      have hstep : geoLoop oracle i (r + 1 + 1) =
          ⟨(geoLoop oracle (i + n) (r + 1)).result,
           (geoLoop oracle (i + n) (r + 1)).attemptsMade + 1,
           (geoLoop oracle (i + n) (r + 1)).requestsMade + n,
           (2 : ℚ) :: (geoLoop oracle (i + n) (r + 1)).sleeps⟩ := by
        conv_lhs => rw [geoLoop]
        rw [hA]
      rw [hstep]
      exact ⟨hrec.1, by rw [hrec.2.1], by rw [hrec.2.2, List.replicate_succ]⟩

/-- Claim C7: when every attempt ends in a transient network failure (at
the primary or the fallback request), `geocode_landmark` with the default
budget makes exactly 3 attempts, sleeps 2 time units between consecutive
attempts (two sleeps), and returns an absent result instead of raising. -/
theorem C7_transient_failures_retried (oracle : Nat → Response)
    (h : ∀ i, (attempt oracle i).1 = .transientErr) :
    (geocode_landmark oracle 3).result = none ∧
    (geocode_landmark oracle 3).attemptsMade = 3 ∧
    (geocode_landmark oracle 3).sleeps = [2, 2] :=
  geoLoop_all_transient oracle h 2 0

/-- Witness for C7 with an oracle raising a network error on every
request. -/
theorem C7_witness :
    (geocode_landmark (fun _ => Response.transient) 3).result = none ∧
    (geocode_landmark (fun _ => Response.transient) 3).attemptsMade = 3 ∧
    (geocode_landmark (fun _ => Response.transient) 3).sleeps = [2, 2] :=
  C7_transient_failures_retried _ (fun _ => rfl)

/-- Claim C8: when the first attempt raises a non-network failure,
`geocode_landmark` returns an absent result immediately: one attempt, no
sleeps, no further retries although budget remains, and no exception
reaches the caller. -/
theorem C8_terminal_failure_immediate (oracle : Nat → Response)
    (h : (attempt oracle 0).1 = .terminalErr) :
    (geocode_landmark oracle 3).result = none ∧
    (geocode_landmark oracle 3).attemptsMade = 1 ∧
    (geocode_landmark oracle 3).sleeps = [] := by
  cases hA : attempt oracle 0 with
  | mk a n =>
    have hra : a = .terminalErr := by
      rw [hA] at h
      exact h
    subst hra
    simp [geocode_landmark, geoLoop, hA]

/-- Witness for C8 with an oracle raising a non-network failure on every
request. -/
theorem C8_witness :
    (geocode_landmark (fun _ => Response.failure) 3).result = none ∧
    (geocode_landmark (fun _ => Response.failure) 3).attemptsMade = 1 ∧
    (geocode_landmark (fun _ => Response.failure) 3).sleeps = [] :=
  C8_terminal_failure_immediate _ rfl

/-- Claim C9: the CSV artifact is the header line `name,lat,lon` followed
by exactly one row per result, in order, each row using the new coordinates
when present and the existing coordinates otherwise, with every comma of
the name replaced by a semicolon; the row count is the landmark count; and
a landmark named `Golden Gate, Park` is written as `Golden Gate; Park`. -/
theorem C9_csv_artifact_shape (content : List Char) (env : Nat → Nat → Response) :
    (main content env).csv =
      CsvLine.text ("name,lat,lon".data) ::
        (main content env).results.map (fun r =>
          CsvLine.row (r.name.map (fun ch => if ch == ',' then ';' else ch))
            ((r.new_coords.map Prod.fst).getD r.existing_lat)
            ((r.new_coords.map Prod.snd).getD r.existing_lon)) ∧
    (main content env).csv.length = (extract_landmarks_from_file content).length + 1 ∧
    csvRowOf ⟨"Golden Gate, Park".data, "San Francisco".data, 1, 2,
              none, none, none, some ("Geocoding failed".data)⟩ =
      CsvLine.row ("Golden Gate; Park".data) 1 2 := by
  have hrow : ∀ r : OutcomeRecord,
      csvRowOf r =
        CsvLine.row (r.name.map (fun ch => if ch == ',' then ';' else ch))
          ((r.new_coords.map Prod.fst).getD r.existing_lat)
          ((r.new_coords.map Prod.snd).getD r.existing_lon) := by
    intro r
    cases hc : r.new_coords with
    | none => simp [csvRowOf, hc]
    | some p => cases p; simp [csvRowOf, hc]
  refine ⟨?_, ?_, ?_⟩
  · show writeCsv (resolveAll env 0 (extract_landmarks_from_file content)) = _
    unfold writeCsv
    rw [funext hrow]
    rfl
  · show (writeCsv (resolveAll env 0 (extract_landmarks_from_file content))).length = _
    simp [writeCsv, resolveAll_length]
  · rfl

/-- Claim C10: on a non-empty response whose first candidate has no `lat`
or `lon` key or an unparsable value, `geocode_landmark` returns an absent
result through the terminal-error branch (one attempt, no retries); by
contrast a missing `display_name` does not cause failure, the empty string
being used instead. -/
theorem C10_candidate_field_failures (oracle : Nat → Response) (c : Candidate)
    (cs : List Candidate) (h0 : oracle 0 = Response.ok (c :: cs)) :
    ((c.lat = none ∨ (∃ s, c.lat = some s ∧ pyFloat s = none) ∨
      c.lon = none ∨ (∃ s, c.lon = some s ∧ pyFloat s = none)) →
      geocode_landmark oracle 3 = ⟨none, 1, 1, []⟩) ∧
    (∀ (ls os : List Char) (qa qb : ℚ),
      c.lat = some ls → pyFloat ls = some qa → c.lon = some os →
      pyFloat os = some qb → c.display_name = none →
      (geocode_landmark oracle 3).result = some ⟨qa, qb, []⟩) := by
  constructor
  · intro hbad
    have hp : processCandidate c = .error () := by
      rcases hbad with h | ⟨s, hs, hf⟩ | h | ⟨s, hs, hf⟩
      · simp [processCandidate, h]
      · simp [processCandidate, hs, hf]
      · cases hl : c.lat with
        | none => simp [processCandidate, hl]
        | some t =>
          cases hg : pyFloat t with
          | none => simp [processCandidate, hl, hg]
          | some q => simp [processCandidate, hl, hg, h]
      · cases hl : c.lat with
        | none => simp [processCandidate, hl]
        | some t =>
          cases hg : pyFloat t with
          | none => simp [processCandidate, hl, hg]
          | some q => simp [processCandidate, hl, hg, hs, hf]
    have ha : attempt oracle 0 = (.terminalErr, 1) := by
      simp [attempt, h0, hp]
    simp [geocode_landmark, geoLoop, ha]
  · intro ls os qa qb hla hqa hlo hqb hd
    have hp : processCandidate c = .ok ⟨qa, qb, []⟩ := by
      simp [processCandidate, hla, hqa, hlo, hqb, hd]
    have ha : attempt oracle 0 = (.found ⟨qa, qb, []⟩, 1) := by
      simp [attempt, h0, hp]
    simp [geocode_landmark, geoLoop, ha]

/-- Witness for C10 with an unparsable `lat` value. -/
theorem C10_witness :
    geocode_landmark (fun _ => Response.ok [candBad]) 3 = ⟨none, 1, 1, []⟩ :=
  (C10_candidate_field_failures _ candBad [] rfl).1
    (Or.inr (Or.inl ⟨"abc".data, rfl, by decide⟩))

end GeoData

